import Mathlib

/-!
Shallow embedding of the core logic of the NPG-Lite web firmware flasher:
the IndexedDB-backed firmware cache, the GitHub release fetch fallback
chain, and the serial flashing session (connect / flash / disconnect).

Pure data is embedded directly; the browser environment (IndexedDB
request outcomes, serial handshake and write outcomes, cleanup sub-step
outcomes, fetch responses) is supplied through explicit oracle records,
so every function is a total, executable Lean definition whose branches
mirror the source control flow, including the JavaScript semantics of
returning a promise from inside a try block without awaiting it (the
rejection of such a promise bypasses the surrounding catch).
-/

namespace NPGFlasher

/-- Bytes are modelled as natural numbers. -/
abbrev Byte := Nat

/-- One persisted firmware record, as built by saveFirmwareToDB:
name (the key), raw bytes, timestamp, and the byteLength recorded at
save time. -/
structure FirmwareRecord where
  name : String
  data : List Byte
  timestamp : Nat
  size : Nat
deriving DecidableEq, Repr

/-- The IndexedDB object store with keyPath name: a list of records
with names treated as the key (put overwrites by name). -/
abbrev FirmwareDB := List FirmwareRecord

/-- store.put on a keyPath-name object store: overwrite any record with
the same name, insert otherwise. -/
def dbPut (db : FirmwareDB) (rec : FirmwareRecord) : FirmwareDB :=
  rec :: db.filter (fun r => ¬ (r.name == rec.name))

/-- store.get: first record whose name matches, if any. -/
def dbGet (db : FirmwareDB) (name : String) : Option FirmwareRecord :=
  db.find? (fun r => r.name == name)

/-- store.delete: drop every record with the given name. -/
def dbDelete (db : FirmwareDB) (name : String) : FirmwareDB :=
  db.filter (fun r => ¬ (r.name == name))

/-- Environment outcomes for one saveFirmwareToDB call: whether the first
openDB succeeds, whether the first put request succeeds, whether
deleteDatabase succeeds, and likewise for the retry open and put. -/
structure SaveOracle where
  openOk1 : Bool
  putOk1 : Bool
  resetOk : Bool
  openOk2 : Bool
  putOk2 : Bool
deriving DecidableEq, Repr

/-- Terminal outcome of saveFirmwareToDB as observed by its caller. -/
inductive SaveOutcome where
  /-- The returned promise resolved. -/
  | ok
  /-- The raw IndexedDB request rejection reached the caller: the put
  promise is returned from inside the try block without await, so its
  rejection bypasses the catch. -/
  | rawFault
  /-- The guidance error thrown by the retry catch block. -/
  | storageUnavailable
deriving DecidableEq, Repr

/-- Result of one saveFirmwareToDB call: outcome, resulting store
contents, and how many self-heal (deleteDatabase) cycles ran. -/
structure SaveResult where
  outcome : SaveOutcome
  db : FirmwareDB
  selfHeals : Nat
deriving DecidableEq, Repr

/-- saveFirmwareToDB: try opening the DB and returning the put request
as a promise; the catch (reached only when the awaited openDB rejects)
deletes the database, reopens it, and returns the retried put promise;
a failure of that reset or reopen is caught and surfaced as the
storage-unavailable guidance error. Rejections of either returned put
promise bypass the catch blocks. -/
def saveFirmwareToDB (o : SaveOracle) (db : FirmwareDB) (name : String)
    (data : List Byte) (now : Nat) : SaveResult :=
  let rec1 : FirmwareRecord := ⟨name, data, now, data.length⟩
  if o.openOk1 then
    if o.putOk1 then ⟨.ok, dbPut db rec1, 0⟩
    else ⟨.rawFault, db, 0⟩
  else
    if o.resetOk then
      if o.openOk2 then
        if o.putOk2 then ⟨.ok, dbPut [] rec1, 1⟩
        else ⟨.rawFault, [], 1⟩
      else ⟨.storageUnavailable, [], 1⟩
    else ⟨.storageUnavailable, db, 1⟩

/-- getFirmwareFromDB: resolve with the stored bytes, or null when the
get request finds nothing. -/
def getFirmwareFromDB (db : FirmwareDB) (name : String) : Option (List Byte) :=
  match dbGet db name with
  | some r => some r.data
  | none => none

/-- deleteFirmwareFromDB: delete the record with the given name. -/
def deleteFirmwareFromDB (db : FirmwareDB) (name : String) : FirmwareDB :=
  dbDelete db name

/-- One release asset as returned by the GitHub API. -/
structure GithubAsset where
  name : String
  browser_download_url : String
deriving DecidableEq, Repr

/-- The latest-release payload: its asset list. -/
structure GithubRelease where
  assets : List GithubAsset
deriving DecidableEq, Repr

/-- A candidate offered to the user: asset name and download URL. -/
structure GithubFirmware where
  name : String
  url : String
deriving DecidableEq, Repr

/-- Failure of the whole fetch chain. -/
inductive FetchError where
  | fetchUnavailable
deriving DecidableEq, Repr

/-- The mapping fetchGithubReleases applies to a winning payload:
keep assets whose name ends in .bin, keep their name and download URL. -/
def binCandidates (r : GithubRelease) : List GithubFirmware :=
  (r.assets.filter (fun a => a.name.endsWith ".bin")).map
    (fun a => ⟨a.name, a.browser_download_url⟩)

/-- The for loop over the CORS proxies: try each in order, break at the
first success. -/
def tryProxies : List (Option GithubRelease) → Option GithubRelease
  | [] => none
  | some r :: _ => some r
  | none :: rest => tryProxies rest

/-- fetchGithubReleases: attempt the direct GitHub API call; if it did
not produce a payload, walk the ordered proxy list, stopping at the
first success; if still nothing, fail; otherwise filter the winner's
assets to .bin files and return them. Each slot of the oracle is some
payload when that attempt returned a success status in time, none when
it errored, timed out, or returned a non-success status. -/
def fetchGithubReleases (direct : Option GithubRelease)
    (proxies : List (Option GithubRelease)) :
    Except FetchError (List GithubFirmware) :=
  let releasesData : Option GithubRelease :=
    match direct with
    | some r => some r
    | none => tryProxies proxies
  match releasesData with
  | some r => .ok (binCandidates r)
  | none => .error .fetchUnavailable

/-- JavaScript String.prototype.trim whitespace test, for the
characters that can occur in a typed flash address. -/
def isJsWhitespace (c : Char) : Bool :=
  c == ' ' || c == '\t' || c == '\n' || c == '\r'

/-- Strip leading and trailing whitespace from a character list. -/
def trimChars (l : List Char) : List Char :=
  ((l.dropWhile isJsWhitespace).reverse.dropWhile isJsWhitespace).reverse

/-- flashAddress.trim() as used by flashFirmware. -/
def jsTrim (s : String) : String :=
  ⟨trimChars s.data⟩

/-- One hexadecimal digit, as accepted by the character class of the
address pattern. -/
def isHexDigitChar (c : Char) : Bool :=
  c.isDigit || (decide ('a' ≤ c) && decide (c ≤ 'f')) ||
    (decide ('A' ≤ c) && decide (c ≤ 'F'))

/-- Full match of the anchored address pattern: the literal 0x followed
by one or more hexadecimal digits and nothing else. -/
def matchesHexAddr (s : String) : Bool :=
  match s.data with
  | '0' :: 'x' :: rest => !rest.isEmpty && rest.all isHexDigitChar
  | _ => false

/-- Math.round for the non-negative values produced by the progress
mapping: floor of the value plus one half. -/
def jsRound (q : ℚ) : ℤ :=
  ⌊q + 1 / 2⌋

/-- The progress published for one reportProgress callback carrying
(written, total): the file percentage scaled into the tail 90 percent
of the bar above the fixed 10 percent setup reservation, rounded. -/
def progressOfCallback (written total : Nat) : ℤ :=
  jsRound (10 + (written : ℚ) / (total : ℚ) * 100 * (9 / 10))

/-- The progress values published by the write phase for a list of
delivered callbacks. -/
def flashWriteProgress (cbs : List (Nat × Nat)) : List ℤ :=
  cbs.map (fun c => progressOfCallback c.1 c.2)

/-- The mutable component state that the session operations read and
write: the three device refs, the connection and flashing flags, the
last published progress value, the chip identity, the selected
firmware file (name and bytes), and the flash address field. -/
structure SessionState where
  transport : Option Unit
  espLoader : Option Unit
  serialPort : Option Unit
  isConnected : Bool
  isFlashing : Bool
  progress : ℤ
  chipInfo : String
  firmwareFile : Option (String × List Byte)
  flashAddress : String
deriving DecidableEq, Repr

/-- Operations invoked against the device, its transport, or the serial
port during a session. -/
inductive DeviceAction where
  | requestPort
  | handshake
  | readMac
  | writeFlash
  | resetSignals
  | transportDisconnect
  | portClose
deriving DecidableEq, Repr

/-- Terminal outcome of one flashFirmware call. -/
inductive FlashOutcome where
  /-- Early return: no loader bound or no firmware selected. -/
  | noDeviceOrFile
  /-- Early return: the trimmed address fails the pattern test. -/
  | invalidAddress
  /-- writeFlash resolved and the success path ran to the end. -/
  | success
  /-- writeFlash rejected and the catch path ran. -/
  | writeError
deriving DecidableEq, Repr

/-- Environment outcomes for one flashFirmware call: the progress
callbacks writeFlash delivers, whether it resolves, and the outcomes of
the best-effort cleanup sub-steps. -/
structure FlashOracle where
  callbacks : List (Nat × Nat)
  writeOk : Bool
  hasSetSignals : Bool
  signalsOk : Bool
  disconnectOk : Bool
  portReadable : Bool
deriving DecidableEq, Repr

/-- Result of one flashFirmware call: outcome, resulting state, the
sequence of progress values published in order, and the device
operations performed in order. -/
structure FlashResult where
  outcome : FlashOutcome
  state : SessionState
  published : List ℤ
  deviceOps : List DeviceAction
deriving DecidableEq, Repr

/-- The success-path finalization: pulse the reset signals when the
port exposes them (signal errors are caught locally), then disconnect
the transport; a disconnect rejection is caught by the surrounding
cleanup catch, which skips the port close; otherwise close the port
when it is readable. -/
def successCleanupOps (s : SessionState) (o : FlashOracle) : List DeviceAction :=
  (if s.serialPort.isSome && o.hasSetSignals then [DeviceAction.resetSignals] else []) ++
    (if s.transport.isSome then
      if o.disconnectOk then
        [DeviceAction.transportDisconnect] ++
          (if s.serialPort.isSome && o.portReadable then [DeviceAction.portClose] else [])
      else [DeviceAction.transportDisconnect]
    else if s.serialPort.isSome && o.portReadable then [DeviceAction.portClose] else [])

/-- The failure-path cleanup: disconnect the transport when bound; a
rejection is caught and skips the port close; otherwise close the port
when readable. -/
def failureCleanupOps (s : SessionState) (o : FlashOracle) : List DeviceAction :=
  if s.transport.isSome then
    if o.disconnectOk then
      [DeviceAction.transportDisconnect] ++
        (if s.serialPort.isSome && o.portReadable then [DeviceAction.portClose] else [])
    else [DeviceAction.transportDisconnect]
  else if s.serialPort.isSome && o.portReadable then [DeviceAction.portClose] else []

/-- flashFirmware: early-return when no loader or no file is bound;
early-return when the trimmed address fails the pattern; otherwise set
the flashing flag, publish 0 then 10, run writeFlash publishing the
mapped callback values, and on resolution publish 100, finalize, and
clear every device ref, the connected flag, and the chip identity; on
rejection run the cleanup chain and clear the same state; the finally
block clears the flashing flag on both paths. -/
def flashFirmware (o : FlashOracle) (s : SessionState) : FlashResult :=
  if s.espLoader.isNone || s.firmwareFile.isNone then
    ⟨.noDeviceOrFile, s, [], []⟩
  else if !matchesHexAddr (jsTrim s.flashAddress) then
    ⟨.invalidAddress, s, [], []⟩
  else if o.writeOk then
    ⟨.success,
      { s with transport := none, espLoader := none, serialPort := none,
               isConnected := false, isFlashing := false, chipInfo := "",
               progress := 100 },
      [0, 10] ++ flashWriteProgress o.callbacks ++ [100],
      [DeviceAction.writeFlash] ++ successCleanupOps s o⟩
  else
    ⟨.writeError,
      { s with transport := none, espLoader := none, serialPort := none,
               isConnected := false, isFlashing := false, chipInfo := "",
               progress := ([0, 10] ++ flashWriteProgress o.callbacks).getLastD 0 },
      [0, 10] ++ flashWriteProgress o.callbacks,
      [DeviceAction.writeFlash] ++ failureCleanupOps s o⟩

/-- The Flash Firmware button is disabled while no device is connected,
a flash is in flight, or no firmware is selected; a click while
disabled dispatches nothing. -/
def flashButtonDisabled (s : SessionState) : Bool :=
  !s.isConnected || s.isFlashing || s.firmwareFile.isNone

/-- Outcome of a flash request arriving at the UI layer. -/
inductive RequestOutcome where
  /-- Rejected because a flash is already in flight. -/
  | sessionBusy
  /-- Rejected because no device or no firmware is bound. -/
  | notReady
  /-- Dispatched to flashFirmware, with its outcome. -/
  | dispatched (r : FlashOutcome)
deriving DecidableEq, Repr

/-- A flash request: while the button is disabled the click performs
nothing (rejected synchronously, publishing nothing and touching no
state); otherwise flashFirmware runs. -/
def requestFlash (o : FlashOracle) (s : SessionState) :
    RequestOutcome × SessionState × List ℤ × List DeviceAction :=
  if flashButtonDisabled s then
    (if s.isFlashing then .sessionBusy else .notReady, s, [], [])
  else
    let r := flashFirmware o s
    (.dispatched r.outcome, r.state, r.published, r.deviceOps)

/-- Environment outcomes for one connectToDevice call: platform serial
support, whether requestPort resolves, whether the loader handshake
(esploader.main) resolves and with which chip name, and the
best-effort MAC probe. -/
structure ConnectOracle where
  serialSupported : Bool
  portGranted : Bool
  handshakeOk : Bool
  chip : String
  hasReadMac : Bool
  readMacOk : Bool
deriving DecidableEq, Repr

/-- Result of one connectToDevice call: resulting state and the device
operations performed in order. -/
structure ConnectResult where
  state : SessionState
  deviceOps : List DeviceAction
deriving DecidableEq, Repr

/-- connectToDevice: bail out when the platform lacks the serial
capability; request a port; on grant, bind the port, transport and
loader refs and run the handshake; on success record the chip identity,
set the connected flag, and probe the MAC address best-effort; any
thrown error is caught by a handler that logs it and sets the three
device refs to null, performing no disconnect or close. -/
def connectToDevice (o : ConnectOracle) (s : SessionState) : ConnectResult :=
  if !o.serialSupported then ⟨s, []⟩
  else if !o.portGranted then
    ⟨{ s with transport := none, espLoader := none, serialPort := none },
      [DeviceAction.requestPort]⟩
  else
    let s1 := { s with serialPort := some (), transport := some (),
                       espLoader := some () }
    if !o.handshakeOk then
      ⟨{ s1 with transport := none, espLoader := none, serialPort := none },
        [DeviceAction.requestPort, DeviceAction.handshake]⟩
    else
      ⟨{ s1 with chipInfo := o.chip, isConnected := true },
        [DeviceAction.requestPort, DeviceAction.handshake] ++
          (if o.hasReadMac then [DeviceAction.readMac] else [])⟩

/-- Environment outcomes for one disconnectDevice call. -/
structure DisconnectOracle where
  disconnectOk : Bool
  closeOk : Bool
  portReadable : Bool
deriving DecidableEq, Repr

/-- Result of one disconnectDevice call: resulting state, operations
performed, and whether a warning was logged for an absorbed error. -/
structure DisconnectResult where
  state : SessionState
  deviceOps : List DeviceAction
  warned : Bool
deriving DecidableEq, Repr

/-- disconnectDevice: disconnect the transport when bound and close the
port when bound and readable, catching any thrown error into a logged
warning; the finally block always clears the three device refs, the
connected flag and the chip identity, so the caller never observes an
error. -/
def disconnectDevice (o : DisconnectOracle) (s : SessionState) : DisconnectResult :=
  let opsWarn : List DeviceAction × Bool :=
    if s.transport.isSome then
      if !o.disconnectOk then ([DeviceAction.transportDisconnect], true)
      else if s.serialPort.isSome && o.portReadable then
        if !o.closeOk then
          ([DeviceAction.transportDisconnect, DeviceAction.portClose], true)
        else ([DeviceAction.transportDisconnect, DeviceAction.portClose], false)
      else ([DeviceAction.transportDisconnect], false)
    else if s.serialPort.isSome && o.portReadable then
      if !o.closeOk then ([DeviceAction.portClose], true)
      else ([DeviceAction.portClose], false)
    else ([], false)
  ⟨{ s with transport := none, espLoader := none, serialPort := none,
            isConnected := false, chipInfo := "" },
    opsWarn.1, opsWarn.2⟩

/-- deleteFirmwareFromStorage: delete the record, refresh the list, and
clear the selected firmware when its name is the deleted one; a thrown
delete error is caught and leaves the selection and store untouched. -/
def deleteFirmwareFromStorage (deleteOk : Bool) (db : FirmwareDB)
    (selected : Option (String × List Byte)) (name : String) :
    FirmwareDB × Option (String × List Byte) :=
  if deleteOk then
    (deleteFirmwareFromDB db name,
      match selected with
      | some f => if f.1 == name then none else some f
      | none => none)
  else (db, selected)

/-- clearAllFirmwares: after user confirmation, delete the whole
database, refresh the list and clear the selected firmware; without
confirmation, or when the reset throws (caught), nothing changes. -/
def clearAllFirmwares (confirmOk resetOk : Bool) (db : FirmwareDB)
    (selected : Option (String × List Byte)) :
    FirmwareDB × Option (String × List Byte) :=
  if confirmOk then
    if resetOk then ([], none)
    else (db, selected)
  else (db, selected)

/-- The published value for one callback is monotone in the written
count, for any fixed total. -/
lemma progressOfCallback_mono (t : Nat) {w w' : Nat} (h : w ≤ w') :
    progressOfCallback w t ≤ progressOfCallback w' t := by
  unfold progressOfCallback jsRound
  apply Int.floor_le_floor
  have hd : (w : ℚ) / (t : ℚ) ≤ (w' : ℚ) / (t : ℚ) :=
    div_le_div_of_nonneg_right (by exact_mod_cast h) (Nat.cast_nonneg t)
  linarith

/-- Every published write-phase value is at least the setup value 10. -/
lemma ten_le_progressOfCallback (w t : Nat) : 10 ≤ progressOfCallback w t := by
  unfold progressOfCallback jsRound
  have hd : (0 : ℚ) ≤ (w : ℚ) / (t : ℚ) :=
    div_nonneg (Nat.cast_nonneg w) (Nat.cast_nonneg t)
  have : (10 : ℤ) ≤ ⌊(10 : ℚ) + 1 / 2⌋ := by norm_num
  calc (10 : ℤ) ≤ ⌊(10 : ℚ) + 1 / 2⌋ := this
    _ ≤ _ := Int.floor_le_floor (by linarith)

/-- A callback with written at most total publishes at most 100. -/
lemma progressOfCallback_le_hundred (w t : Nat) (h : w ≤ t) :
    progressOfCallback w t ≤ 100 := by
  unfold progressOfCallback jsRound
  have hd : (w : ℚ) / (t : ℚ) ≤ 1 := by
    rcases Nat.eq_zero_or_pos t with ht | ht
    · subst ht; simp
    · exact (div_le_one (by exact_mod_cast ht)).mpr (by exact_mod_cast h)
  have : (10 : ℚ) + (w : ℚ) / (t : ℚ) * 100 * (9 / 10) + 1 / 2 < 101 := by linarith
  have hf := Int.floor_lt.mpr (by push_cast; linarith :
    (10 : ℚ) + (w : ℚ) / (t : ℚ) * 100 * (9 / 10) + 1 / 2 < ((101 : ℤ) : ℚ))
  omega

/-- The full published sequence of a successful write phase is
pairwise non-decreasing, given non-decreasing written counts bounded by
the total. -/
lemma published_pairwise (t : Nat) (ws : List Nat)
    (hmono : ws.Chain' (· ≤ ·)) (hle : ∀ w ∈ ws, w ≤ t) :
    ((0 : ℤ) :: 10 :: ws.map (fun w => progressOfCallback w t) ++ [100]).Pairwise
      (· ≤ ·) := by
  have hpw : ws.Pairwise (· ≤ ·) := List.chain'_iff_pairwise.mp hmono
  have hmap : (ws.map (fun w => progressOfCallback w t)).Pairwise
      (fun a b => a ≤ b) :=
    hpw.map _ (fun a b hab => progressOfCallback_mono t hab)
  refine List.pairwise_cons.mpr ⟨?_, List.pairwise_cons.mpr ⟨?_, ?_⟩⟩
  · intro y hy
    rcases List.mem_cons.mp hy with rfl | hy
    · norm_num
    rcases List.mem_append.mp hy with hy | hy
    · rcases List.mem_map.mp hy with ⟨w, _, rfl⟩
      have := ten_le_progressOfCallback w t
      omega
    · rcases List.mem_singleton.mp hy with rfl
      norm_num
  · intro y hy
    rcases List.mem_append.mp hy with hy | hy
    · rcases List.mem_map.mp hy with ⟨w, _, rfl⟩
      exact ten_le_progressOfCallback w t
    · rcases List.mem_singleton.mp hy with rfl
      norm_num
  · refine List.pairwise_append.mpr ⟨hmap, by simp, ?_⟩
    intro x hx y hy
    rcases List.mem_map.mp hx with ⟨w, hw, rfl⟩
    rcases List.mem_singleton.mp hy with rfl
    exact progressOfCallback_le_hundred w t (hle w hw)

/-- On a successful outcome, flashFirmware published 0, 10, the mapped
callback values in order, then 100. -/
lemma flashFirmware_success_shape (o : FlashOracle) (s : SessionState)
    (h : (flashFirmware o s).outcome = FlashOutcome.success) :
    (flashFirmware o s).published =
      [0, 10] ++ flashWriteProgress o.callbacks ++ [100] := by
  unfold flashFirmware at h ⊢
  split_ifs at h ⊢ <;> simp_all

/-- C1: whenever a flashFirmware call runs to a terminal write outcome
(success or write error), the returned state has the transport, loader
and serial-port refs cleared, the connected flag false, and the
flashing flag false, so a later connect starts from a clean state. -/
theorem flash_terminal_teardown (o : FlashOracle) (s : SessionState)
    (h : (flashFirmware o s).outcome = FlashOutcome.success ∨
         (flashFirmware o s).outcome = FlashOutcome.writeError) :
    (flashFirmware o s).state.transport = none ∧
    (flashFirmware o s).state.espLoader = none ∧
    (flashFirmware o s).state.serialPort = none ∧
    (flashFirmware o s).state.isConnected = false ∧
    (flashFirmware o s).state.isFlashing = false := by
  unfold flashFirmware at h ⊢
  split_ifs at h ⊢ <;> simp_all

/-- C1 witness: a concrete successful flash ends with no transport
bound. -/
theorem flash_terminal_teardown_app :
    (flashFirmware ⟨[], true, true, true, true, true⟩
      ⟨some (), some (), some (), true, false, 0, "ESP32-C6",
        some ("app.bin", [1, 2, 3]), "0x10000"⟩).state.transport = none :=
  (flash_terminal_teardown ⟨[], true, true, true, true, true⟩
    ⟨some (), some (), some (), true, false, 0, "ESP32-C6",
      some ("app.bin", [1, 2, 3]), "0x10000"⟩ (Or.inl (by decide))).1

/-- The last element of a list of at least two elements ending in an
appended singleton. -/
lemma getLast_cons_cons_append (a b c : ℤ) (l : List ℤ) :
    (a :: b :: (l ++ [c])).getLast? = some c := by
  have h : a :: b :: (l ++ [c]) = (a :: b :: l) ++ [c] := by simp
  rw [h, List.getLast?_concat]

/-- C2: for every flash call whose write delivers callbacks with a
fixed positive total and non-decreasing written counts bounded by the
total, the published progress sequence is non-decreasing — whether the
call returns early, the write fails after some callbacks, or it
succeeds — and on success it ends exactly at 100. -/
theorem flash_progress_monotone_to_hundred (o : FlashOracle)
    (s : SessionState) (t : Nat) (ws : List Nat)
    (hcb : o.callbacks = ws.map (fun w => (w, t)))
    (ht : 0 < t)
    (hmono : ws.Chain' (· ≤ ·))
    (hle : ∀ w ∈ ws, w ≤ t) :
    ((flashFirmware o s).published).Chain' (· ≤ ·) ∧
      ((flashFirmware o s).outcome = FlashOutcome.success →
        ((flashFirmware o s).published).getLast? = some 100) := by
  have hmapped : flashWriteProgress o.callbacks =
      ws.map (fun w => progressOfCallback w t) := by
    simp [hcb, flashWriteProgress, List.map_map, Function.comp]
  have hpw := published_pairwise t ws hmono hle
  have hchainFull : ((0 : ℤ) :: 10 ::
      ws.map (fun w => progressOfCallback w t) ++ [100]).Chain' (· ≤ ·) :=
    List.chain'_iff_pairwise.mpr hpw
  have hsub : ((0 : ℤ) :: 10 :: ws.map (fun w => progressOfCallback w t)).Sublist
      ((0 : ℤ) :: 10 :: ws.map (fun w => progressOfCallback w t) ++ [100]) :=
    List.Sublist.cons₂ _ (List.Sublist.cons₂ _
      (List.sublist_append_left (ws.map (fun w => progressOfCallback w t)) [100]))
  have hchainPart : ((0 : ℤ) :: 10 ::
      ws.map (fun w => progressOfCallback w t)).Chain' (· ≤ ·) :=
    List.chain'_iff_pairwise.mpr (hpw.sublist hsub)
  unfold flashFirmware
  split_ifs
  · exact ⟨List.chain'_nil, by simp⟩
  · exact ⟨List.chain'_nil, by simp⟩
  · refine ⟨?_, fun _ => ?_⟩
    · simpa [hmapped] using hchainFull
    · simp only [hmapped]
      simpa using getLast_cons_cons_append 0 10 100
        (ws.map (fun w => progressOfCallback w t))
  · refine ⟨?_, fun hfalse => ?_⟩
    · simpa [hmapped] using hchainPart
    · simp at hfalse

/-- C2 witness: a concrete flash whose write delivers two callbacks and
then fails still publishes a non-decreasing sequence. -/
theorem flash_progress_monotone_to_hundred_app :
    ((flashFirmware ⟨[(256, 512), (512, 512)], false, true, true, true, true⟩
      ⟨some (), some (), some (), true, false, 0, "ESP32-C6",
        some ("app.bin", [1, 2, 3]), "0x10000"⟩).published).Chain' (· ≤ ·) :=
  (flash_progress_monotone_to_hundred
    ⟨[(256, 512), (512, 512)], false, true, true, true, true⟩
    ⟨some (), some (), some (), true, false, 0, "ESP32-C6",
      some ("app.bin", [1, 2, 3]), "0x10000"⟩
    512 [256, 512] rfl (by decide) (by norm_num [List.chain'_cons])
    (by decide)).1

/-- C3 counterexample: with a device and a firmware bound, the address
string with a leading space does not match the anchored pattern, yet
the flash proceeds to the write phase, because the code tests the
trimmed string. -/
theorem flash_address_untrimmed_cex :
    matchesHexAddr " 0x10" = false ∧
    (flashFirmware ⟨[], true, true, true, true, true⟩
      ⟨some (), some (), some (), true, false, 0, "ESP32-C6",
        some ("app.bin", [1, 2, 3]), " 0x10"⟩).outcome =
      FlashOutcome.success := by
  exact ⟨by decide, by decide⟩

/-- C3 amended: with a loader and firmware bound, the flash proceeds to
the write phase exactly when the trimmed address string fully matches
the hex pattern; otherwise it returns the invalid-address outcome with
the state untouched, nothing published, and no device operation
performed. -/
theorem flash_address_gate (o : FlashOracle) (s : SessionState)
    (hl : s.espLoader.isSome = true) (hf : s.firmwareFile.isSome = true) :
    (matchesHexAddr (jsTrim s.flashAddress) = true →
      (flashFirmware o s).outcome = FlashOutcome.success ∨
        (flashFirmware o s).outcome = FlashOutcome.writeError) ∧
    (matchesHexAddr (jsTrim s.flashAddress) = false →
      flashFirmware o s = ⟨FlashOutcome.invalidAddress, s, [], []⟩) := by
  obtain ⟨a, ha⟩ := Option.isSome_iff_exists.mp hl
  obtain ⟨b, hb⟩ := Option.isSome_iff_exists.mp hf
  constructor
  · intro hm
    rcases hw : o.writeOk with _ | _
    · right
      simp [flashFirmware, ha, hb, hm, hw]
    · left
      simp [flashFirmware, ha, hb, hm, hw]
  · intro hm
    simp [flashFirmware, ha, hb, hm]

/-- C3 amended witness: a concrete valid address proceeds to the write
phase. -/
theorem flash_address_gate_app :
    (flashFirmware ⟨[], true, true, true, true, true⟩
      ⟨some (), some (), some (), true, false, 0, "ESP32-C6",
        some ("app.bin", [1, 2, 3]), "0x10000"⟩).outcome =
        FlashOutcome.success ∨
    (flashFirmware ⟨[], true, true, true, true, true⟩
      ⟨some (), some (), some (), true, false, 0, "ESP32-C6",
        some ("app.bin", [1, 2, 3]), "0x10000"⟩).outcome =
        FlashOutcome.writeError :=
  (flash_address_gate ⟨[], true, true, true, true, true⟩
    ⟨some (), some (), some (), true, false, 0, "ESP32-C6",
      some ("app.bin", [1, 2, 3]), "0x10000"⟩ (by decide) (by decide)).1
    (by decide)

/-- C4: a flash request arriving while a flash is already in flight is
rejected synchronously as busy: nothing is dispatched or queued, no
progress is published by the rejected request, no device operation
runs, and the session state, including the in-flight progress value,
is untouched. -/
theorem flash_request_busy_rejected (o : FlashOracle) (s : SessionState)
    (h : s.isFlashing = true) :
    requestFlash o s = (RequestOutcome.sessionBusy, s, [], []) := by
  unfold requestFlash flashButtonDisabled
  simp [h]

/-- C4 witness: a concrete busy session rejects a second request. -/
theorem flash_request_busy_rejected_app :
    requestFlash ⟨[], true, true, true, true, true⟩
      ⟨some (), some (), some (), true, true, 55, "ESP32-C6",
        some ("app.bin", [1, 2, 3]), "0x10000"⟩ =
      (RequestOutcome.sessionBusy,
        ⟨some (), some (), some (), true, true, 55, "ESP32-C6",
          some ("app.bin", [1, 2, 3]), "0x10000"⟩, [], []) :=
  flash_request_busy_rejected ⟨[], true, true, true, true, true⟩
    ⟨some (), some (), some (), true, true, 55, "ESP32-C6",
      some ("app.bin", [1, 2, 3]), "0x10000"⟩ rfl

/-- C5: when the database opens but the put request itself faults, the
raw rejection reaches the caller with zero self-heal cycles and no
retry, because the put promise is returned from the try block without
await and its rejection bypasses the catch. -/
theorem save_write_fault_skips_selfheal :
    saveFirmwareToDB ⟨true, false, true, true, true⟩ [] "app.bin" [1, 2] 7 =
      ⟨SaveOutcome.rawFault, [], 0⟩ := by
  decide

/-- C6: the fetch chain returns the bin candidates of the first
successful attempt, in the order direct feed then proxies, and fails
with the unavailable error exactly when every attempt fails. -/
theorem fetch_first_success (direct : Option GithubRelease)
    (proxies : List (Option GithubRelease)) :
    fetchGithubReleases direct proxies =
      match (direct :: proxies).findSome? id with
      | some r => Except.ok (binCandidates r)
      | none => Except.error FetchError.fetchUnavailable := by
  cases direct with
  | some r => simp [fetchGithubReleases, List.findSome?]
  | none =>
    simp only [fetchGithubReleases, List.findSome?]
    induction proxies with
    | nil => rfl
    | cons p rest ih =>
      cases p with
      | some r => simp [tryProxies, List.findSome?]
      | none => simpa [tryProxies, List.findSome?] using ih

/-- C7 counterexample: a connect whose handshake fails acquires the
port but performs no transport disconnect and no port close — the
transport is dropped, not released — even though the refs end
cleared. -/
theorem handshake_failure_no_release_cex :
    (connectToDevice ⟨true, true, false, "", false, false⟩
      ⟨none, none, none, false, false, 0, "", none, "0x10000"⟩).deviceOps =
      [DeviceAction.requestPort, DeviceAction.handshake] ∧
    DeviceAction.transportDisconnect ∉
      (connectToDevice ⟨true, true, false, "", false, false⟩
        ⟨none, none, none, false, false, 0, "", none, "0x10000"⟩).deviceOps ∧
    DeviceAction.portClose ∉
      (connectToDevice ⟨true, true, false, "", false, false⟩
        ⟨none, none, none, false, false, 0, "", none, "0x10000"⟩).deviceOps := by
  exact ⟨by decide, by decide, by decide⟩

/-- C7 amended: on a handshake failure during connect, the session
clears the transport, loader and port refs (no handle remains bound and
the connected flag keeps its prior value, false for a fresh session),
but the acquired transport and port are dropped without any disconnect
or close operation. -/
theorem handshake_failure_clears_refs (o : ConnectOracle) (s : SessionState)
    (hs : o.serialSupported = true) (hp : o.portGranted = true)
    (hh : o.handshakeOk = false) :
    (connectToDevice o s).state.transport = none ∧
    (connectToDevice o s).state.espLoader = none ∧
    (connectToDevice o s).state.serialPort = none ∧
    (connectToDevice o s).state.isConnected = s.isConnected ∧
    DeviceAction.transportDisconnect ∉ (connectToDevice o s).deviceOps ∧
    DeviceAction.portClose ∉ (connectToDevice o s).deviceOps := by
  simp [connectToDevice, hs, hp, hh]

/-- C7 amended witness: a concrete failed handshake leaves no transport
bound. -/
theorem handshake_failure_clears_refs_app :
    (connectToDevice ⟨true, true, false, "", false, false⟩
      ⟨none, none, none, false, false, 0, "", none, "0x10000"⟩).state.transport =
      none :=
  (handshake_failure_clears_refs ⟨true, true, false, "", false, false⟩
    ⟨none, none, none, false, false, 0, "", none, "0x10000"⟩ rfl rfl rfl).1

/-- C8: putting a record then getting it by name returns exactly the
stored bytes, the stored record carries size equal to the byte length,
and getting after a delete of that name finds nothing. -/
theorem put_get_delete_roundtrip (db : FirmwareDB) (name : String)
    (data : List Byte) (now : Nat) :
    getFirmwareFromDB (saveFirmwareToDB ⟨true, true, true, true, true⟩
        db name data now).db name = some data ∧
    (dbGet (saveFirmwareToDB ⟨true, true, true, true, true⟩
        db name data now).db name).map (fun r => r.size) =
      some data.length ∧
    getFirmwareFromDB
      (deleteFirmwareFromDB (saveFirmwareToDB ⟨true, true, true, true, true⟩
        db name data now).db name) name = none := by
  have hget : dbGet (dbPut db ⟨name, data, now, data.length⟩) name =
      some ⟨name, data, now, data.length⟩ := by
    simp [dbGet, dbPut, List.find?]
  have hdel : ∀ l : FirmwareDB, dbGet (dbDelete l name) name = none := by
    intro l
    unfold dbGet dbDelete
    rw [List.find?_eq_none]
    intro r hr
    have := (List.mem_filter.mp hr).2
    simp_all
  refine ⟨?_, ?_, ?_⟩
  · simp [saveFirmwareToDB, getFirmwareFromDB, hget]
  · simp [saveFirmwareToDB, hget]
  · simp [saveFirmwareToDB, getFirmwareFromDB, deleteFirmwareFromDB, hdel]

/-- C9: disconnectDevice always leaves the session fully released:
for every combination of transport-disconnect and port-close outcomes
the refs are cleared, the connected flag is false and the chip identity
is empty, and a thrown disconnect error is absorbed into a logged
warning instead of propagating. -/
theorem disconnect_always_releases (o : DisconnectOracle) (s : SessionState) :
    ((disconnectDevice o s).state.transport = none ∧
     (disconnectDevice o s).state.espLoader = none ∧
     (disconnectDevice o s).state.serialPort = none ∧
     (disconnectDevice o s).state.isConnected = false ∧
     (disconnectDevice o s).state.chipInfo = "") ∧
    (s.transport = some () → o.disconnectOk = false →
      (disconnectDevice o s).warned = true) := by
  constructor
  · exact ⟨rfl, rfl, rfl, rfl, rfl⟩
  · intro ht hd
    simp [disconnectDevice, ht, hd]

/-- C9 witness: a concrete disconnect whose transport disconnect throws
still clears the refs and logs a warning. -/
theorem disconnect_always_releases_app :
    (disconnectDevice ⟨false, true, true⟩
      ⟨some (), some (), some (), true, false, 100, "ESP32-C6",
        none, "0x10000"⟩).warned = true :=
  (disconnect_always_releases ⟨false, true, true⟩
    ⟨some (), some (), some (), true, false, 100, "ESP32-C6",
      none, "0x10000"⟩).2 rfl rfl

/-- C10: after a successful cache delete of a name, a selection bearing
that name is cleared to none, and after a confirmed successful
clear-all, the selection is cleared to none unconditionally. -/
theorem selection_cleared_after_removal (db : FirmwareDB)
    (sel : Option (String × List Byte)) (name : String) :
    (∀ f, sel = some f → f.1 = name →
      (deleteFirmwareFromStorage true db sel name).2 = none) ∧
    (clearAllFirmwares true true db sel).2 = none := by
  constructor
  · rintro f rfl rfl
    simp [deleteFirmwareFromStorage]
  · rfl

/-- C10 witness: deleting the selected name clears the selection; a
confirmed clear-all clears it too. -/
theorem selection_cleared_after_removal_app :
    (deleteFirmwareFromStorage true [] (some ("a.bin", [1])) "a.bin").2 =
      none ∧
    (clearAllFirmwares true true [] (some ("a.bin", [1]))).2 = none :=
  ⟨(selection_cleared_after_removal [] (some ("a.bin", [1])) "a.bin").1
      ("a.bin", [1]) rfl rfl,
    (selection_cleared_after_removal [] (some ("a.bin", [1])) "a.bin").2⟩

end NPGFlasher
